import Mathlib

/-!
Shallow embedding of `src/graph_utils.py` (the single source file of the
repository): graph assembly from Neo4j records (`get_graph_data`), the
networkx `DiGraph` edge construction used by `display_graph`, the
scroll-zoom handler (`zoom_fun`), the drag-pan handlers (`on_press`,
`on_release`, `on_motion`), and the control flow of `display_graph`
itself.

Modelling conventions:
* Python `None` becomes `Option.none`; a possibly-absent string field is
  `Option String`.  Python truthiness of a string (`if s:`) is "not `none`
  and not the empty string".
* Floating-point coordinates become `ℚ` (exact arithmetic; the code does
  only field operations).
* A handler that can raise a Python exception returns `Except String _`;
  the string names the exception class.
* `ax._pan_start` is an ad-hoc attribute on the axes object: before any
  press it does not exist (reading it raises `AttributeError`), after a
  release inside the axes it is `None`, during a drag it is a pixel pair.
  `PanStart` has one constructor per situation.
-/

/-- One row returned by the Cypher query
`MATCH (n) OPTIONAL MATCH (n)-[r]->(m) RETURN n.name AS source_name,
type(r) AS relationship_type, m.name AS target_name`; every field may be
null. -/
structure Neo4jRecord where
  source_name : Option String
  relationship_type : Option String
  target_name : Option String
  deriving DecidableEq

/-- An entry of the `edges` list built by `get_graph_data`: the raw
`source_name` (possibly null), the target name (appended only when
truthy, hence a plain string), and the raw `relationship_type`. -/
abbrev EdgeT := Option String × String × Option String

/-- Python set insertion `nodes.add(name)`, observed as an
insertion-ordered duplicate-free list. -/
def addNode (nodes : List String) (n : String) : List String :=
  if n ∈ nodes then nodes else nodes ++ [n]

/-- The body of the `for record in result:` loop of `get_graph_data`:
`if source_name: nodes.add(source_name)`;
`if target_name: nodes.add(target_name); edges.append((source_name,
target_name, relationship))`.  Python truthiness: `none` and `""` are
falsy. -/
def processRecord (acc : List String × List EdgeT) (r : Neo4jRecord) :
    List String × List EdgeT :=
  let nodes1 : List String :=
    match r.source_name with
    | some s => if s = "" then acc.1 else addNode acc.1 s
    | none => acc.1
  match r.target_name with
  | some t =>
      if t = "" then (nodes1, acc.2)
      else (addNode nodes1 t, acc.2 ++ [(r.source_name, t, r.relationship_type)])
  | none => (nodes1, acc.2)

/-- Function `get_graph_data`: fold the loop body over the query result,
starting from an empty node set and edge list. -/
def get_graph_data (records : List Neo4jRecord) : List String × List EdgeT :=
  records.foldl processRecord ([], [])

/-- An edge of the `nx.DiGraph`: a `(source, target)` key (at most one
entry per key) together with the current value of its `type` attribute. -/
abbrev DiEdge := (Option String × String) × Option String

/-- One `DiGraph.add_edge` call with a type attribute.  networkx first
rejects a `None` endpoint with `ValueError("None cannot be a node")`
(the target here is always a string, only the source can be `None`);
otherwise, if the `(u, v)` edge already exists its attribute is
overwritten, else the edge is appended. -/
def upsertEdge (es : List DiEdge) (u : Option String) (v : String)
    (lbl : Option String) : Except String (List DiEdge) :=
  match u with
  | none => Except.error "ValueError"
  | some _ =>
    Except.ok
      (if es.any (fun e => e.1 = (u, v)) then
        es.map (fun e => if e.1 = (u, v) then ((u, v), lbl) else e)
      else es ++ [((u, v), lbl)])

/-- The `G.add_edges_from` call of `display_graph` on the `nx.DiGraph`
`G` (each list entry carries a source, a target and a type attribute),
observed as the final edge/attribute association of `G`: the edges are
added one by one, and the first null-source entry raises `ValueError`
out of the whole call. -/
def add_edges_from (es : List EdgeT) : Except String (List DiEdge) :=
  es.foldlM (fun acc e => upsertEdge acc e.1 e.2.1 e.2.2) []

/-- The visible data-coordinate window of the axes, as read by
`ax.get_xlim()` / `ax.get_ylim()` and written by `ax.set_xlim` /
`ax.set_ylim`. -/
structure Viewport where
  xMin : ℚ
  xMax : ℚ
  yMin : ℚ
  yMax : ℚ
  deriving DecidableEq

/-- The `event.button` field of a matplotlib scroll event: scroll up,
scroll down, or anything else. -/
inductive ScrollButton
  | up
  | down
  | other
  deriving DecidableEq

/-- A matplotlib scroll event as consumed by `zoom_fun`: `event.xdata` /
`event.ydata` are the data coordinates under the cursor, and are `None`
exactly when the event happened outside the axes. -/
structure ScrollEvent where
  button : ScrollButton
  xdata : Option ℚ
  ydata : Option ℚ
  deriving DecidableEq

/-- Handler `zoom_fun` from `zoom_factory` (the code installs it with
the default `base_scale = 2`).  When the event is outside the axes `event.xdata` is
`None` and the expression `cur_xlim[1] - xdata` raises `TypeError`; the
handler never checks `event.inaxes`. -/
def zoom_fun (base_scale : ℚ) (v : Viewport) (e : ScrollEvent) :
    Except String Viewport :=
  match e.xdata, e.ydata with
  | some xdata, some ydata =>
    let scale_factor : ℚ :=
      match e.button with
      | .up => 1 / base_scale
      | .down => base_scale
      | .other => 1
    let new_width := (v.xMax - v.xMin) * scale_factor
    let new_height := (v.yMax - v.yMin) * scale_factor
    let relx := (v.xMax - xdata) / (v.xMax - v.xMin)
    let rely := (v.yMax - ydata) / (v.yMax - v.yMin)
    Except.ok
      { xMin := xdata - new_width * (1 - relx)
        xMax := xdata + new_width * relx
        yMin := ydata - new_height * (1 - rely)
        yMax := ydata + new_height * rely }
  | _, _ => Except.error "TypeError"

/-- The state of the ad-hoc `ax._pan_start` attribute. -/
inductive PanStart
  | unset
  | cleared
  | anchor (x y : ℚ)
  deriving DecidableEq

/-- A matplotlib button/motion event as consumed by the pan handlers:
`inAxes` is `event.inaxes == ax`; `x`, `y` are `event.x` / `event.y`
(pixel coordinates). -/
structure MotionEvent where
  inAxes : Bool
  x : ℚ
  y : ℚ
  deriving DecidableEq

/-- Handler `on_press`: outside the axes, return; inside, store the
pixel position in `ax._pan_start`. -/
def on_press (ps : PanStart) (e : MotionEvent) : PanStart :=
  if e.inAxes then PanStart.anchor e.x e.y else ps

/-- Handler `on_release`: outside the axes, return; inside, set
`ax._pan_start` to `None`. -/
def on_release (ps : PanStart) (e : MotionEvent) : PanStart :=
  if e.inAxes then PanStart.cleared else ps

/-- Handler `on_motion`: `if event.inaxes != ax or not ax._pan_start: return`,
then shift both limits by the pixel delta scaled by data-units-per-pixel
and update the anchor.  Reading `ax._pan_start` before any press raises
`AttributeError`.  `canvasW`/`canvasH` are the width and height in
pixels of `ax.get_window_extent()` (positive for a rendered axes). -/
def on_motion (canvasW canvasH : ℚ) (st : Viewport × PanStart)
    (e : MotionEvent) : Except String (Viewport × PanStart) :=
  if e.inAxes then
    match st.2 with
    | PanStart.unset => Except.error "AttributeError"
    | PanStart.cleared => Except.ok st
    | PanStart.anchor ax0 ay0 =>
      let dx := e.x - ax0
      let dy := e.y - ay0
      let scale_x := (st.1.xMax - st.1.xMin) / canvasW
      let scale_y := (st.1.yMax - st.1.yMin) / canvasH
      Except.ok
        ({ xMin := st.1.xMin - dx * scale_x
           xMax := st.1.xMax - dx * scale_x
           yMin := st.1.yMin + dy * scale_y
           yMax := st.1.yMax + dy * scale_y }, PanStart.anchor e.x e.y)
  else Except.ok st

/-- The observable outcome of one `display_graph` call: its return value
(`None` on the normal path, the sentinel string on the early return) and
whether `driver.close()` ran before the call returned. -/
structure DisplayOutcome where
  result : Option String
  driverClosed : Bool
  deriving DecidableEq

/-- The control flow of `display_graph`: open the driver, fetch the
data, `G.add_nodes_from` (node names are never null), then
`G.add_edges_from` — which sits OUTSIDE the `try`, so the `ValueError`
raised for a null-source edge propagates uncaught: on that exit the
function neither returns the sentinel nor reaches `driver.close()`.
Otherwise, try to render with netgraph (`renderFails` says whether
`ngGraph(...)` raised — most commonly it does on an empty node set; the
bare `except:` catches anything): on render failure the function
returns the sentinel immediately — `driver.close()` at the end of the
function is never reached on that path either; on success it shows the
window and then closes the driver. -/
def display_graph (records : List Neo4jRecord) (renderFails : Bool) :
    Except String DisplayOutcome :=
  let data := get_graph_data records
  match add_edges_from data.2 with
  | Except.error err => Except.error err
  | Except.ok _G =>
    if renderFails then
      Except.ok { result := some "Nothing to Plot, add memories",
                  driverClosed := false }
    else
      Except.ok { result := none, driverClosed := true }

/-!
Specification-side helper definitions (observation functions used to
state the theorems; these are not translations of source code).
-/

/-- The single edge (if any) that one record contributes to the edge
list: present exactly when the target name is truthy. -/
def edgeOf (r : Neo4jRecord) : Option EdgeT :=
  match r.target_name with
  | some t => if t = "" then none else some (r.source_name, t, r.relationship_type)
  | none => none

/-- The effect of one record on the node set alone. -/
def addIfTruthy (ns : List String) (o : Option String) : List String :=
  match o with
  | some s => if s = "" then ns else addNode ns s
  | none => ns

/-- One record's combined node-set update (source first, then target),
mirroring the order of the two `if` statements in the loop body. -/
def nodeStep (ns : List String) (r : Neo4jRecord) : List String :=
  addIfTruthy (addIfTruthy ns r.source_name) r.target_name

/-- Lookup of the `type` attribute of edge `k` in the `DiGraph`'s edge
association. -/
def lookupEdge (es : List DiEdge) (k : Option String × String) :
    Option (Option String) :=
  match es with
  | [] => none
  | e :: rest => if e.1 = k then some e.2 else lookupEdge rest k

/-- The relation label of the LAST triple in `es` whose `(source, target)`
pair is `k`, if any (later entries take priority). -/
def lastLabel (es : List EdgeT) (k : Option String × String) :
    Option (Option String) :=
  match es with
  | [] => none
  | e :: rest =>
      (lastLabel rest k).orElse
        (fun _ => if (e.1, e.2.1) = k then some e.2.2 else none)

/-- The successful-case value of one `upsertEdge` step (the overwrite-or
-append association update), used to characterise what the `DiGraph`
holds when no entry has a null source. -/
def upsertPure (es : List DiEdge) (u : Option String) (v : String)
    (lbl : Option String) : List DiEdge :=
  if es.any (fun e => e.1 = (u, v)) then
    es.map (fun e => if e.1 = (u, v) then ((u, v), lbl) else e)
  else es ++ [((u, v), lbl)]

/-- The edge association `add_edges_from` builds when every entry has a
present source (observation function for the collapse property). -/
def digraphEdges (es : List EdgeT) : List DiEdge :=
  es.foldl (fun acc e => upsertPure acc e.1 e.2.1 e.2.2) []

/-!
Helper lemmas about graph assembly.
-/

lemma mem_addNode {l : List String} {n m : String} :
    m ∈ addNode l n ↔ m ∈ l ∨ m = n := by
  unfold addNode
  split
  · rename_i h
    constructor
    · exact fun hm => Or.inl hm
    · rintro (hm | rfl)
      · exact hm
      · exact h
  · simp

lemma nodup_addNode {l : List String} {n : String} (h : l.Nodup) :
    (addNode l n).Nodup := by
  unfold addNode
  split
  · exact h
  · rename_i hn
    simpa [List.nodup_append] using ⟨h, hn⟩

lemma mem_addIfTruthy {l : List String} {o : Option String} {m : String} :
    m ∈ addIfTruthy l o ↔ m ∈ l ∨ (o = some m ∧ m ≠ "") := by
  cases o with
  | none => simp [addIfTruthy]
  | some s =>
    by_cases hs : s = ""
    · subst hs
      simp only [addIfTruthy, if_pos rfl]
      constructor
      · exact fun h => Or.inl h
      · rintro (h | ⟨hsm, hm⟩)
        · exact h
        · exact absurd (Option.some_injective _ hsm).symm hm
    · simp only [addIfTruthy, if_neg hs, mem_addNode, Option.some_inj]
      constructor
      · rintro (h | rfl)
        · exact Or.inl h
        · exact Or.inr ⟨rfl, hs⟩
      · rintro (h | ⟨rfl, _⟩)
        · exact Or.inl h
        · exact Or.inr rfl

lemma nodup_addIfTruthy {l : List String} {o : Option String}
    (h : l.Nodup) : (addIfTruthy l o).Nodup := by
  cases o with
  | none => exact h
  | some s =>
    by_cases hs : s = ""
    · simpa [addIfTruthy, hs] using h
    · simpa [addIfTruthy, hs] using nodup_addNode (n := s) h

lemma processRecord_eq (acc : List String × List EdgeT) (r : Neo4jRecord) :
    processRecord acc r = (nodeStep acc.1 r, acc.2 ++ (edgeOf r).toList) := by
  rcases r with ⟨s, rel, t⟩
  cases s <;> cases t <;>
    simp [processRecord, nodeStep, addIfTruthy, edgeOf] <;>
    split <;> simp

lemma foldl_processRecord (records : List Neo4jRecord) :
    ∀ acc : List String × List EdgeT,
      records.foldl processRecord acc =
        (records.foldl nodeStep acc.1, acc.2 ++ records.filterMap edgeOf) := by
  induction records with
  | nil => intro acc; simp
  | cons r rs ih =>
    intro acc
    rw [List.foldl_cons, ih (processRecord acc r), processRecord_eq]
    cases h : edgeOf r <;>
      simp [List.filterMap_cons, h]

lemma get_graph_data_nodes (records : List Neo4jRecord) :
    (get_graph_data records).1 = records.foldl nodeStep [] := by
  rw [get_graph_data, foldl_processRecord]

lemma get_graph_data_edges (records : List Neo4jRecord) :
    (get_graph_data records).2 = records.filterMap edgeOf := by
  rw [get_graph_data, foldl_processRecord]
  simp

lemma mem_foldl_nodeStep (records : List Neo4jRecord) :
    ∀ (acc : List String) (n : String),
      n ∈ records.foldl nodeStep acc ↔
        n ∈ acc ∨ ∃ r ∈ records,
          n ≠ "" ∧ (r.source_name = some n ∨ r.target_name = some n) := by
  induction records with
  | nil => intro acc n; simp
  | cons r rs ih =>
    intro acc n
    rw [List.foldl_cons, ih]
    simp only [nodeStep, mem_addIfTruthy, List.mem_cons]
    constructor
    · rintro (((h | ⟨hs, hn⟩) | ⟨ht, hn⟩) | ⟨r', hr', hn, hst⟩)
      · exact Or.inl h
      · exact Or.inr ⟨r, Or.inl rfl, hn, Or.inl hs⟩
      · exact Or.inr ⟨r, Or.inl rfl, hn, Or.inr ht⟩
      · exact Or.inr ⟨r', Or.inr hr', hn, hst⟩
    · rintro (h | ⟨r', (rfl | hr'), hn, (hs | ht)⟩)
      · exact Or.inl (Or.inl (Or.inl h))
      · exact Or.inl (Or.inl (Or.inr ⟨hs, hn⟩))
      · exact Or.inl (Or.inr ⟨ht, hn⟩)
      · exact Or.inr ⟨r', hr', hn, Or.inl hs⟩
      · exact Or.inr ⟨r', hr', hn, Or.inr ht⟩

lemma nodup_foldl_nodeStep (records : List Neo4jRecord) :
    ∀ acc : List String, acc.Nodup → (records.foldl nodeStep acc).Nodup := by
  induction records with
  | nil => intro acc h; simpa
  | cons r rs ih =>
    intro acc h
    exact ih _ (nodup_addIfTruthy (nodup_addIfTruthy h))

lemma mem_get_graph_data_nodes (records : List Neo4jRecord) (n : String) :
    n ∈ (get_graph_data records).1 ↔
      ∃ r ∈ records,
        n ≠ "" ∧ (r.source_name = some n ∨ r.target_name = some n) := by
  rw [get_graph_data_nodes, mem_foldl_nodeStep]
  simp

lemma nodup_get_graph_data_nodes (records : List Neo4jRecord) :
    (get_graph_data records).1.Nodup := by
  rw [get_graph_data_nodes]
  exact nodup_foldl_nodeStep records [] List.nodup_nil

/-!
Helper lemmas about the `DiGraph` edge construction.
-/

lemma lookupEdge_append (es fs : List DiEdge) (k : Option String × String) :
    lookupEdge (es ++ fs) k =
      (lookupEdge es k).orElse (fun _ => lookupEdge fs k) := by
  induction es with
  | nil => simp [lookupEdge, Option.orElse]
  | cons e es ih =>
    by_cases h : e.1 = k <;> simp [lookupEdge, h, ih, Option.orElse]

lemma lookupEdge_eq_none (es : List DiEdge) (k : Option String × String)
    (h : es.any (fun e => e.1 = k) = false) : lookupEdge es k = none := by
  induction es with
  | nil => rfl
  | cons e es ih =>
    simp only [List.any_cons, Bool.or_eq_false_iff] at h
    have he : e.1 ≠ k := by simpa using h.1
    simp [lookupEdge, he, ih h.2]

lemma lookupEdge_map_overwrite (es : List DiEdge)
    (k : Option String × String) (lbl : Option String)
    (h : es.any (fun e => e.1 = k) = true) :
    lookupEdge (es.map (fun e => if e.1 = k then (k, lbl) else e)) k =
      some lbl := by
  induction es with
  | nil => cases h
  | cons e es ih =>
    by_cases he : e.1 = k
    · simp [lookupEdge, he]
    · have h' : es.any (fun e => e.1 = k) = true := by
        simpa [List.any_cons, he] using h
      simp [lookupEdge, he, ih h']

lemma lookupEdge_map_ne (es : List DiEdge) {k : Option String × String}
    (u : Option String) (v : String) (lbl : Option String)
    (hk : k ≠ (u, v)) :
    lookupEdge (es.map (fun e => if e.1 = (u, v) then ((u, v), lbl) else e)) k =
      lookupEdge es k := by
  have hk' : ((u, v) : Option String × String) ≠ k := Ne.symm hk
  induction es with
  | nil => rfl
  | cons e es ih =>
    by_cases he : e.1 = (u, v)
    · simp [lookupEdge, he, hk', ih]
    · simp [lookupEdge, he, ih]

lemma lookupEdge_upsert_self (es : List DiEdge) (u : Option String)
    (v : String) (lbl : Option String) :
    lookupEdge (upsertPure es u v lbl) (u, v) = some lbl := by
  unfold upsertPure
  split
  · rename_i h
    exact lookupEdge_map_overwrite es (u, v) lbl h
  · rename_i h
    rw [lookupEdge_append, lookupEdge_eq_none es (u, v)
      (by rwa [Bool.not_eq_true] at h)]
    simp [lookupEdge, Option.orElse]

lemma lookupEdge_upsert_ne (es : List DiEdge) (u : Option String)
    (v : String) (lbl : Option String) {k : Option String × String}
    (hk : k ≠ (u, v)) :
    lookupEdge (upsertPure es u v lbl) k = lookupEdge es k := by
  unfold upsertPure
  split
  · exact lookupEdge_map_ne es u v lbl hk
  · rw [lookupEdge_append]
    cases hcase : lookupEdge es k <;>
      simp [hcase, Option.orElse, lookupEdge, Ne.symm hk]

lemma lookupEdge_foldl_upsert (es : List EdgeT) :
    ∀ (acc : List DiEdge) (k : Option String × String),
      lookupEdge (es.foldl (fun a e => upsertPure a e.1 e.2.1 e.2.2) acc) k =
        (lastLabel es k).orElse (fun _ => lookupEdge acc k) := by
  induction es with
  | nil => intro acc k; simp [lastLabel, Option.orElse]
  | cons e es ih =>
    intro acc k
    rw [List.foldl_cons, ih]
    rw [show lastLabel (e :: es) k =
      (lastLabel es k).orElse
        (fun _ => if (e.1, e.2.1) = k then some e.2.2 else none) from rfl]
    cases hL : lastLabel es k with
    | some l => simp [Option.orElse]
    | none =>
      simp only [Option.orElse]
      by_cases hk : (e.1, e.2.1) = k
      · subst hk
        simp [lookupEdge_upsert_self]
      · rw [lookupEdge_upsert_ne _ _ _ _ (fun h => hk h.symm)]
        simp [hk]

lemma lookupEdge_digraphEdges (es : List EdgeT)
    (k : Option String × String) :
    lookupEdge (digraphEdges es) k = lastLabel es k := by
  rw [digraphEdges, lookupEdge_foldl_upsert]
  cases hL : lastLabel es k <;> simp [Option.orElse, lookupEdge]

lemma nodup_keys_upsert (es : List DiEdge) (u : Option String) (v : String)
    (lbl : Option String) (h : (es.map Prod.fst).Nodup) :
    ((upsertPure es u v lbl).map Prod.fst).Nodup := by
  unfold upsertPure
  split
  · have heq : (es.map (fun e => if e.1 = (u, v) then ((u, v), lbl) else e)).map
        Prod.fst = es.map Prod.fst := by
      rw [List.map_map]
      apply List.map_congr_left
      intro e _
      by_cases hk : e.1 = (u, v) <;> simp [hk]
    rw [heq]
    exact h
  · rename_i hany
    have hnot : ((u, v) : Option String × String) ∉ es.map Prod.fst := by
      intro hmem
      rcases List.mem_map.mp hmem with ⟨e, he, hfst⟩
      have : es.any (fun e => e.1 = (u, v)) = true :=
        List.any_eq_true.mpr ⟨e, he, by simpa using hfst⟩
      exact absurd this (by simpa using hany)
    rw [List.map_append]
    simp [List.nodup_append, h, hnot]

lemma nodup_keys_foldl_upsert (es : List EdgeT) :
    ∀ acc : List DiEdge, (acc.map Prod.fst).Nodup →
      ((es.foldl (fun a e => upsertPure a e.1 e.2.1 e.2.2) acc).map
        Prod.fst).Nodup := by
  induction es with
  | nil => intro acc h; simpa
  | cons e es ih =>
    intro acc h
    exact ih _ (nodup_keys_upsert acc e.1 e.2.1 e.2.2 h)

lemma nodup_keys_digraphEdges (es : List EdgeT) :
    ((digraphEdges es).map Prod.fst).Nodup :=
  nodup_keys_foldl_upsert es [] List.nodup_nil

lemma upsertEdge_some (es : List DiEdge) (s : String) (v : String)
    (lbl : Option String) :
    upsertEdge es (some s) v lbl = Except.ok (upsertPure es (some s) v lbl) :=
  rfl

lemma add_edges_from_spec (es : List EdgeT) :
    add_edges_from es =
      if es.any (fun e => e.1 = none) then Except.error "ValueError"
      else Except.ok (digraphEdges es) := by
  rw [add_edges_from, digraphEdges]
  have main : ∀ (l : List EdgeT) (acc : List DiEdge),
      l.foldlM (fun a e => upsertEdge a e.1 e.2.1 e.2.2) acc =
        if l.any (fun e => e.1 = none) then Except.error "ValueError"
        else Except.ok (l.foldl (fun a e => upsertPure a e.1 e.2.1 e.2.2) acc) := by
    intro l
    induction l with
    | nil => intro acc; rfl
    | cons e es ih =>
      intro acc
      rcases e with ⟨u, v, lbl⟩
      cases u with
      | none =>
        rw [show List.foldlM (fun a e => upsertEdge a e.1 e.2.1 e.2.2) acc
            (((none : Option String), v, lbl) :: es) =
          Except.error "ValueError" from rfl]
        simp
      | some s =>
        rw [show List.foldlM (fun a e => upsertEdge a e.1 e.2.1 e.2.2) acc
            ((some s, v, lbl) :: es) =
          List.foldlM (fun a e => upsertEdge a e.1 e.2.1 e.2.2)
            (upsertPure acc (some s) v lbl) es from rfl]
        rw [ih]
        simp only [List.any_cons, List.foldl_cons,
          show (decide ((some s : Option String) = none)) = false from rfl,
          Bool.false_or]
  exact main es []

/-!
Claim theorems: graph assembly and `display_graph` control flow.
-/

/-- Claim C1, counterexample: on the empty-graph render-failure path,
`display_graph` returns the sentinel string but `driver.close()` (which
sits after `plt.show()` at the end of the function) is never executed,
so the store connection is NOT released on that exit path. -/
theorem C1_counterexample :
    display_graph [] true =
      Except.ok
        { result := some "Nothing to Plot, add memories",
          driverClosed := false } := rfl

/-- Claim C1 as amended: `display_graph` has three exit paths.  If any
assembled edge has a null source, `G.add_edges_from` — which sits
outside the `try` — raises an uncaught `ValueError`: no sentinel is
returned and the driver is not released.  Otherwise, if the render step
fails, the function returns the sentinel string rather than raising,
still without releasing the driver; the driver is released only on the
normal exit path. -/
theorem C1_sentinel_and_driver (records : List Neo4jRecord)
    (renderFails : Bool) :
    display_graph records renderFails =
      (if (get_graph_data records).2.any (fun e => e.1 = none) then
        Except.error "ValueError"
      else if renderFails then
        Except.ok { result := some "Nothing to Plot, add memories",
                    driverClosed := false }
      else
        Except.ok { result := none, driverClosed := true }) ∧
    display_graph [⟨none, some "KNOWS", some "B"⟩] renderFails =
      Except.error "ValueError" := by
  constructor
  · simp only [display_graph, add_edges_from_spec]
    by_cases h : (get_graph_data records).2.any (fun e => e.1 = none) = true
    · simp [h]
    · simp [h]
  · simp only [display_graph, add_edges_from_spec]
    rfl

/-- Claim C5, counterexample: the empty string is a non-null name
appearing as a source, yet it is never added to the node set (Python
truthiness skips it), so the node set does not contain every distinct
non-null name. -/
theorem C5_counterexample :
    ((⟨some "", none, none⟩ : Neo4jRecord).source_name = some "") ∧
      (get_graph_data [⟨some "", none, none⟩]).1.count "" = 0 := by
  constructor <;> rfl

/-- Claim C5 as amended: for every record sequence, the node set contains
each distinct non-null, NON-EMPTY name appearing as a source or target
exactly once, regardless of how many records mention it; and Scenario A
yields exactly the node set consisting of A and B. -/
theorem C5_node_dedup (records : List Neo4jRecord) (n : String)
    (hn : n ≠ "") :
    ((get_graph_data records).1.count n = 1 ↔
      ∃ r ∈ records, r.source_name = some n ∨ r.target_name = some n) ∧
    get_graph_data
        [⟨some "A", some "KNOWS", some "B"⟩, ⟨some "B", none, none⟩,
         ⟨none, none, none⟩] =
      (["A", "B"], [(some "A", "B", some "KNOWS")]) := by
  refine ⟨⟨?_, ?_⟩, by rfl⟩
  · intro h
    have hmem : n ∈ (get_graph_data records).1 :=
      List.count_pos_iff.mp (by omega)
    rcases (mem_get_graph_data_nodes records n).mp hmem with ⟨r, hr, _, hst⟩
    exact ⟨r, hr, hst⟩
  · rintro ⟨r, hr, hst⟩
    exact List.count_eq_one_of_mem (nodup_get_graph_data_nodes records)
      ((mem_get_graph_data_nodes records n).mpr ⟨r, hr, hn, hst⟩)

/-- Witness for C5_node_dedup at a concrete input. -/
theorem C5_node_dedup_witness :
    ((get_graph_data [⟨some "A", some "KNOWS", some "B"⟩]).1.count "A" = 1 ↔
      ∃ r ∈ [(⟨some "A", some "KNOWS", some "B"⟩ : Neo4jRecord)],
        r.source_name = some "A" ∨ r.target_name = some "A") ∧
    get_graph_data
        [⟨some "A", some "KNOWS", some "B"⟩, ⟨some "B", none, none⟩,
         ⟨none, none, none⟩] =
      (["A", "B"], [(some "A", "B", some "KNOWS")]) :=
  C5_node_dedup [⟨some "A", some "KNOWS", some "B"⟩] "A" (by decide)

/-- Claim C6, counterexample: a record whose target name is the empty
string has a non-null target, yet it contributes no edge — presence is
decided by truthiness, so the edge count does not equal the number of
records with a non-null target. -/
theorem C6_counterexample :
    ((⟨some "A", some "R", some ""⟩ : Neo4jRecord).target_name ≠ none) ∧
      (get_graph_data [⟨some "A", some "R", some ""⟩]).2 = [] := by
  constructor
  · intro h
    cases h
  · rfl

/-- Claim C6 as amended: the edge list contains exactly one edge per
record with a truthy (non-null, non-empty) target, in input order
(`filterMap edgeOf`), and a record with a null source but truthy target
still appends its edge, with the null source retained. -/
theorem C6_edge_cardinality (records rs : List Neo4jRecord)
    (rel : Option String) (t : String) (ht : t ≠ "") :
    (get_graph_data records).2 = records.filterMap edgeOf ∧
    (get_graph_data (rs ++ [⟨none, rel, some t⟩])).2 =
      (get_graph_data rs).2 ++ [(none, t, rel)] := by
  refine ⟨get_graph_data_edges records, ?_⟩
  rw [get_graph_data_edges, get_graph_data_edges, List.filterMap_append]
  simp [edgeOf, ht]

/-- Witness for C6_edge_cardinality at a concrete input. -/
theorem C6_edge_cardinality_witness :
    (get_graph_data [⟨some "A", some "R", some "B"⟩]).2 =
      [(⟨some "A", some "R", some "B"⟩ : Neo4jRecord)].filterMap edgeOf ∧
    (get_graph_data
        ([⟨some "A", some "R", some "B"⟩] ++ [⟨none, some "R2", some "C"⟩])).2 =
      (get_graph_data [⟨some "A", some "R", some "B"⟩]).2 ++
        [(none, "C", some "R2")] :=
  C6_edge_cardinality [⟨some "A", some "R", some "B"⟩]
    [⟨some "A", some "R", some "B"⟩] (some "R2") "C" (by decide)

/-- Claim C7, counterexample: two records with the same source/target
pair but different relation labels produce two entries in the edge list,
yet the `nx.DiGraph` keeps only ONE edge for the pair, labelled with the
LAST relation type — the two differently-labelled edges are not distinct
in the graph. -/
theorem C7_counterexample :
    add_edges_from
        [(some "A", "B", some "R1"), (some "A", "B", some "R2")] =
      Except.ok [((some "A", "B"), some "R2")] := rfl

/-- Claim C7 as amended: the edge LIST retains one entry per matching
record (parallel and differently-labelled edges included); the
`nx.DiGraph` build raises `ValueError` as soon as the list contains a
null-source entry (no graph is produced), and on lists whose sources
are all present it collapses all edges between the same
`(source, target)` pair into a single edge whose `type` attribute is
the relation label of the last matching entry. -/
theorem C7_digraph_collapse (es : List EdgeT) :
    (add_edges_from es =
      if es.any (fun e => e.1 = none) then Except.error "ValueError"
      else Except.ok (digraphEdges es)) ∧
    ((digraphEdges es).map Prod.fst).Nodup ∧
    (∀ k : Option String × String,
      lookupEdge (digraphEdges es) k = lastLabel es k) ∧
    (get_graph_data
        [⟨some "A", some "R1", some "B"⟩,
         ⟨some "A", some "R2", some "B"⟩]).2 =
      [(some "A", "B", some "R1"), (some "A", "B", some "R2")] ∧
    add_edges_from [(none, "B", some "R1")] = Except.error "ValueError" :=
  ⟨add_edges_from_spec es, nodup_keys_digraphEdges es,
   fun k => lookupEdge_digraphEdges es k, rfl, rfl⟩

/-- Claim C10: an empty-string source or target name is treated as
absent — the empty string never enters the node set, a record whose
names are all empty contributes nothing at all, and a record with an
empty target contributes no edge. -/
theorem C10_empty_string_truthiness (records : List Neo4jRecord)
    (rel src : Option String) :
    "" ∉ (get_graph_data records).1 ∧
    get_graph_data (records ++ [⟨some "", rel, some ""⟩]) =
      get_graph_data records ∧
    (get_graph_data (records ++ [⟨src, rel, some ""⟩])).2 =
      (get_graph_data records).2 := by
  refine ⟨?_, ?_, ?_⟩
  · intro hmem
    rcases (mem_get_graph_data_nodes records "").mp hmem with ⟨_, _, hne, _⟩
    exact hne rfl
  · rw [get_graph_data, get_graph_data, List.foldl_append]
    rfl
  · rw [get_graph_data, get_graph_data, List.foldl_append]
    rfl

/-!
Claim theorems: viewport controller.
-/

/-- Helper for the zoom anchor-invariance argument: the anchor's relative
position in the rescaled interval equals `r` as long as the new width `A`
is nonzero. -/
lemma zoom_rel_cancel (A : ℚ) (hA : A ≠ 0) (p r : ℚ) :
    ((p + A * r) - p) / ((p + A * r) - (p - A * (1 - r))) = r := by
  rw [show (p + A * r) - p = A * r by ring,
      show (p + A * r) - (p - A * (1 - r)) = A by ring]
  exact mul_div_cancel_left₀ r hA

/-- Claim C2, counterexample: on viewport `(0,10,0,10)` zooming In at
anchor `(2,2)` with `base_scale = 2` the code yields bounds `(1, 6)` (per
its own formula, with `relX = 0.8`), not the `(-2, 3)` the claim's
worked scenario states. -/
theorem C2_counterexample :
    zoom_fun 2 ⟨0, 10, 0, 10⟩ ⟨ScrollButton.up, some 2, some 2⟩ =
        Except.ok ⟨1, 6, 1, 6⟩ ∧
      zoom_fun 2 ⟨0, 10, 0, 10⟩ ⟨ScrollButton.up, some 2, some 2⟩ ≠
        Except.ok ⟨-2, 3, -2, 3⟩ := by
  have h1 : zoom_fun 2 ⟨0, 10, 0, 10⟩ ⟨ScrollButton.up, some 2, some 2⟩ =
      Except.ok ⟨1, 6, 1, 6⟩ := by
    norm_num [zoom_fun]
  refine ⟨h1, ?_⟩
  rw [h1]
  intro h
  have h3 : (1 : ℚ) = -2 := congrArg Viewport.xMin (Except.ok.inj h)
  norm_num at h3

/-- Claim C2 as amended: for every viewport and anchor, zoom In
(`k = 1/2`) and zoom Out (`k = 2`) set the new bounds to
`xMin = anchorX - w(1 - relX)`, `xMax = anchorX + w relX` with
`w = width·k` and `relX = (xMax - anchorX)/(xMax - xMin)` computed before
scaling (symmetrically for y); on viewport `(0,10,0,10)` zooming In at
`(2,2)` gives new width/height `5` and bounds `xMin = 1`, `xMax = 6`
(identically for y), not `-2`/`3`. -/
theorem C2_zoom_formula (v : Viewport) (px py : ℚ) :
    (zoom_fun 2 v ⟨ScrollButton.up, some px, some py⟩ =
      Except.ok
        { xMin := px - (v.xMax - v.xMin) * (1 / 2) *
            (1 - (v.xMax - px) / (v.xMax - v.xMin))
          xMax := px + (v.xMax - v.xMin) * (1 / 2) *
            ((v.xMax - px) / (v.xMax - v.xMin))
          yMin := py - (v.yMax - v.yMin) * (1 / 2) *
            (1 - (v.yMax - py) / (v.yMax - v.yMin))
          yMax := py + (v.yMax - v.yMin) * (1 / 2) *
            ((v.yMax - py) / (v.yMax - v.yMin)) }) ∧
    (zoom_fun 2 v ⟨ScrollButton.down, some px, some py⟩ =
      Except.ok
        { xMin := px - (v.xMax - v.xMin) * 2 *
            (1 - (v.xMax - px) / (v.xMax - v.xMin))
          xMax := px + (v.xMax - v.xMin) * 2 *
            ((v.xMax - px) / (v.xMax - v.xMin))
          yMin := py - (v.yMax - v.yMin) * 2 *
            (1 - (v.yMax - py) / (v.yMax - v.yMin))
          yMax := py + (v.yMax - v.yMin) * 2 *
            ((v.yMax - py) / (v.yMax - v.yMin)) }) ∧
    zoom_fun 2 ⟨0, 10, 0, 10⟩ ⟨ScrollButton.up, some 2, some 2⟩ =
      Except.ok ⟨1, 6, 1, 6⟩ :=
  ⟨rfl, rfl, by norm_num [zoom_fun]⟩

/-- Claim C3: for every viewport, every anchor strictly inside it and
either zoom direction (indeed any scroll button), the anchor's relative
position `(xMax - anchorX)/(xMax - xMin)` (and the y analogue) is the
same before and after the zoom — the anchor maps to the same screen
pixel. -/
theorem C3_anchor_invariance (b : ScrollButton) (v : Viewport)
    (px py : ℚ) (hx1 : v.xMin < px) (hx2 : px < v.xMax)
    (hy1 : v.yMin < py) (hy2 : py < v.yMax) :
    ∃ w : Viewport,
      zoom_fun 2 v ⟨b, some px, some py⟩ = Except.ok w ∧
      (w.xMax - px) / (w.xMax - w.xMin) =
        (v.xMax - px) / (v.xMax - v.xMin) ∧
      (w.yMax - py) / (w.yMax - w.yMin) =
        (v.yMax - py) / (v.yMax - v.yMin) := by
  have hwx : (0 : ℚ) < v.xMax - v.xMin := by linarith
  have hwy : (0 : ℚ) < v.yMax - v.yMin := by linarith
  rcases b with _ | _ | _
  · have hAx : ((v.xMax - v.xMin) * (1 / 2) : ℚ) ≠ 0 := ne_of_gt (by linarith)
    have hAy : ((v.yMax - v.yMin) * (1 / 2) : ℚ) ≠ 0 := ne_of_gt (by linarith)
    exact ⟨_, rfl, zoom_rel_cancel _ hAx px _, zoom_rel_cancel _ hAy py _⟩
  · have hAx : ((v.xMax - v.xMin) * 2 : ℚ) ≠ 0 := ne_of_gt (by linarith)
    have hAy : ((v.yMax - v.yMin) * 2 : ℚ) ≠ 0 := ne_of_gt (by linarith)
    exact ⟨_, rfl, zoom_rel_cancel _ hAx px _, zoom_rel_cancel _ hAy py _⟩
  · have hAx : ((v.xMax - v.xMin) * 1 : ℚ) ≠ 0 := ne_of_gt (by linarith)
    have hAy : ((v.yMax - v.yMin) * 1 : ℚ) ≠ 0 := ne_of_gt (by linarith)
    exact ⟨_, rfl, zoom_rel_cancel _ hAx px _, zoom_rel_cancel _ hAy py _⟩

/-- Witness for C3_anchor_invariance at a concrete input. -/
theorem C3_anchor_invariance_witness :
    ∃ w : Viewport,
      zoom_fun 2 ⟨0, 10, 0, 10⟩ ⟨ScrollButton.up, some 2, some 2⟩ =
        Except.ok w ∧
      (w.xMax - 2) / (w.xMax - w.xMin) = ((10 : ℚ) - 2) / (10 - 0) ∧
      (w.yMax - 2) / (w.yMax - w.yMin) = ((10 : ℚ) - 2) / (10 - 0) :=
  C3_anchor_invariance ScrollButton.up ⟨0, 10, 0, 10⟩ 2 2
    (by norm_num) (by norm_num) (by norm_num) (by norm_num)

/-- Claim C4: a motion event inside the canvas while dragging shifts
both x bounds by `-(sx - ax)·scaleX` and both y bounds by
`+(sy - ay)·scaleY`, with `scaleX = width/canvasWidthPx` and
`scaleY = height/canvasHeightPx`, and updates the stored anchor to the
event position; with anchor `(100,100)`, motion to `(110,95)`, canvas
`500x400` and viewport `(0,10,0,10)` the x bounds decrease by `0.2` and
the y bounds change by `-0.125`. -/
theorem C4_pan_formula (canvasW canvasH : ℚ) (v : Viewport)
    (ax0 ay0 sx sy : ℚ) :
    on_motion canvasW canvasH (v, PanStart.anchor ax0 ay0)
        ⟨true, sx, sy⟩ =
      Except.ok
        ({ xMin := v.xMin - (sx - ax0) * ((v.xMax - v.xMin) / canvasW)
           xMax := v.xMax - (sx - ax0) * ((v.xMax - v.xMin) / canvasW)
           yMin := v.yMin + (sy - ay0) * ((v.yMax - v.yMin) / canvasH)
           yMax := v.yMax + (sy - ay0) * ((v.yMax - v.yMin) / canvasH) },
         PanStart.anchor sx sy) ∧
    on_motion 500 400 (⟨0, 10, 0, 10⟩, PanStart.anchor 100 100)
        ⟨true, 110, 95⟩ =
      Except.ok (⟨-0.2, 9.8, -0.125, 9.875⟩, PanStart.anchor 110 95) := by
  refine ⟨rfl, ?_⟩
  show Except.ok _ = _
  norm_num [on_motion]

/-- Claim C8: starting from a non-degenerate viewport, every zoom (any
scroll button, recognized or not) and every pan step that succeeds
produces a viewport still satisfying `xMax > xMin` and `yMax > yMin` —
no zoom/pan operation inverts or collapses the rectangle. -/
theorem C8_viewport_invariant (v : Viewport) (e : ScrollEvent)
    (cw ch : ℚ) (st : Viewport × PanStart) (me : MotionEvent)
    (hvx : v.xMin < v.xMax) (hvy : v.yMin < v.yMax)
    (hsx : st.1.xMin < st.1.xMax) (hsy : st.1.yMin < st.1.yMax)
    (hcw : 0 < cw) (hch : 0 < ch) :
    (∀ w : Viewport, zoom_fun 2 v e = Except.ok w →
        w.xMin < w.xMax ∧ w.yMin < w.yMax) ∧
    (∀ st2 : Viewport × PanStart, on_motion cw ch st me = Except.ok st2 →
        st2.1.xMin < st2.1.xMax ∧ st2.1.yMin < st2.1.yMax) := by
  have hwx : (0 : ℚ) < v.xMax - v.xMin := by linarith
  have hwy : (0 : ℚ) < v.yMax - v.yMin := by linarith
  constructor
  · intro w hw
    rcases e with ⟨b, xd, yd⟩
    rcases xd with _ | px
    · simp [zoom_fun] at hw
    rcases yd with _ | py
    · simp [zoom_fun] at hw
    rcases b with _ | _ | _ <;>
      · simp only [zoom_fun, Except.ok.injEq] at hw
        subst hw
        constructor <;> (dsimp only; linarith)
  · intro st2 hst
    rcases me with ⟨ia, mx, my⟩
    cases ia
    · simp only [on_motion, Bool.false_eq_true, if_false] at hst
      rw [Except.ok.injEq] at hst
      subst hst
      exact ⟨hsx, hsy⟩
    · rcases st with ⟨vv, ps⟩
      rcases ps with _ | _ | ⟨pqx, pqy⟩
      · simp [on_motion] at hst
      · simp only [on_motion, if_true] at hst
        rw [Except.ok.injEq] at hst
        subst hst
        exact ⟨hsx, hsy⟩
      · simp only [on_motion, if_true, Except.ok.injEq] at hst
        subst hst
        constructor <;> (dsimp only at hsx hsy ⊢; linarith)

/-- Witness for C8_viewport_invariant at a concrete input. -/
theorem C8_viewport_invariant_witness :
    (⟨1, 6, 1, 6⟩ : Viewport).xMin < (⟨1, 6, 1, 6⟩ : Viewport).xMax ∧
    (⟨1, 6, 1, 6⟩ : Viewport).yMin < (⟨1, 6, 1, 6⟩ : Viewport).yMax :=
  (C8_viewport_invariant ⟨0, 10, 0, 10⟩ ⟨ScrollButton.up, some 2, some 2⟩
      500 400 (⟨0, 10, 0, 10⟩, PanStart.anchor 100 100) ⟨true, 110, 95⟩
      (by norm_num) (by norm_num) (by norm_num) (by norm_num)
      (by norm_num) (by norm_num)).1
    ⟨1, 6, 1, 6⟩ (by norm_num [zoom_fun])

/-- Claim C9, counterexample: a scroll event outside the canvas has
`event.xdata = None`, and `zoom_fun` (which never checks `event.inaxes`)
raises `TypeError` on it instead of being a no-op. -/
theorem C9_counterexample :
    zoom_fun 2 ⟨0, 10, 0, 10⟩ ⟨ScrollButton.up, none, none⟩ =
      Except.error "TypeError" := rfl

/-- Claim C9 as amended: out-of-canvas press/release/motion events are
no-ops that leave the viewport and `_pan_start` unchanged (in particular
a press outside the canvas never starts a drag), and an in-canvas motion
with `_pan_start = None` is a no-op; but an out-of-canvas SCROLL event
raises `TypeError` (its `xdata` is `None`), and an in-canvas motion
before any press raises `AttributeError` (`ax._pan_start` is unset). -/
theorem C9_event_gating (v : Viewport) (ps : PanStart) (e : MotionEvent)
    (cw ch x y : ℚ) (b : ScrollButton) (h : e.inAxes = false) :
    on_press ps e = ps ∧
    on_release ps e = ps ∧
    on_motion cw ch (v, ps) e = Except.ok (v, ps) ∧
    zoom_fun 2 v ⟨b, none, none⟩ = Except.error "TypeError" ∧
    on_motion cw ch (v, PanStart.cleared) ⟨true, x, y⟩ =
      Except.ok (v, PanStart.cleared) ∧
    on_motion cw ch (v, PanStart.unset) ⟨true, x, y⟩ =
      Except.error "AttributeError" := by
  refine ⟨?_, ?_, ?_, ?_, rfl, rfl⟩
  · simp [on_press, h]
  · simp [on_release, h]
  · simp [on_motion, h]
  · rfl

/-- Witness for C9_event_gating at a concrete input. -/
theorem C9_event_gating_witness :
    on_press PanStart.cleared ⟨false, 3, 4⟩ = PanStart.cleared ∧
    on_release PanStart.cleared ⟨false, 3, 4⟩ = PanStart.cleared ∧
    on_motion 500 400 (⟨0, 10, 0, 10⟩, PanStart.cleared) ⟨false, 3, 4⟩ =
      Except.ok (⟨0, 10, 0, 10⟩, PanStart.cleared) ∧
    zoom_fun 2 ⟨0, 10, 0, 10⟩ ⟨ScrollButton.up, none, none⟩ =
      Except.error "TypeError" ∧
    on_motion 500 400 (⟨0, 10, 0, 10⟩, PanStart.cleared) ⟨true, 1, 2⟩ =
      Except.ok (⟨0, 10, 0, 10⟩, PanStart.cleared) ∧
    on_motion 500 400 (⟨0, 10, 0, 10⟩, PanStart.unset) ⟨true, 1, 2⟩ =
      Except.error "AttributeError" :=
  C9_event_gating ⟨0, 10, 0, 10⟩ PanStart.cleared ⟨false, 3, 4⟩
    500 400 1 2 ScrollButton.up rfl
